import Mathlib

/-!
# Verification of the `ncfp` cache store and CDS feature matcher

A shallow embedding, in Lean 4, of the cache layer
(`ncbi_cds_from_protein/caches.py`) and of the CDS-extraction driver
(`ncbi_cds_from_protein/scripts/ncfp.py`) of the `ncfp` program.

The SQLite tables are modelled as lists of rows; each cache function is a
Lean function over that state.  SQL statement semantics (primary-key
uniqueness, `UPDATE` matching zero rows, `fetchone` after a write returning
`None`, three-valued `NOT IN`) are embedded explicitly.  Fallible Python
calls (constraint violations, `KeyError`, `int()` parse failures) are
modelled with `Except String`.
-/

namespace Ncfp

/-- A row of the `seqdata` table: `accession TEXT PRIMARY KEY NOT NULL`,
`aa_query TEXT`, `nt_query TEXT` (both nullable). -/
structure SeqDataRow where
  accession : String
  aa_query : Option String
  nt_query : Option String
  deriving Repr, DecidableEq

/-- A row of the `nt_uid_acc` table: `uid TEXT PRIMARY KEY NOT NULL`,
`accession TEXT` (nullable). -/
structure NtUidAccRow where
  uid : String
  accession : Option String
  deriving Repr, DecidableEq

/-- A row of the `seq_nt` link table (the autoincrement `seq_nt_id` is the
list position): `accession TEXT NOT NULL`, `uid TEXT NOT NULL`. -/
structure SeqNtRow where
  accession : String
  uid : String
  deriving Repr, DecidableEq

/-- A row of the `gb_headers` table: `accession TEXT PRIMARY KEY NOT NULL`
plus header metadata columns, all `NOT NULL`. -/
structure GbHeaderRow where
  accession : String
  length : Int
  organism : String
  taxonomy : String
  date : String
  deriving Repr, DecidableEq

/-- The SQLite cache database: the four tables created by `SQL_CREATEDB`
(the `elink` table is dropped and never recreated). -/
structure Cache where
  seqdata : List SeqDataRow
  seq_nt : List SeqNtRow
  nt_uid_acc : List NtUidAccRow
  gb_headers : List GbHeaderRow
  deriving Repr, DecidableEq

/-- Python `initialise_dbcache`: executes `SQL_CREATEDB`, dropping and recreating
every table, so the result is the empty cache. -/
def initialise_dbcache : Cache :=
  { seqdata := [], seq_nt := [], nt_uid_acc := [], gb_headers := [] }

/-- Statement `SQL_ADDSEQ`: `INSERT INTO seqdata (accession, aa_query, nt_query)
VALUES (?, ?, ?)`.  `accession` is the primary key, so inserting a
duplicate raises `sqlite3.IntegrityError`. -/
def sql_addseq (t : List SeqDataRow) (accession : String)
    (aa_query nt_query : Option String) : Except String (List SeqDataRow) :=
  if t.any (fun r => r.accession == accession) then
    .error "IntegrityError: UNIQUE constraint failed: seqdata.accession"
  else
    .ok (t ++ [{ accession := accession, aa_query := aa_query, nt_query := nt_query }])

/-- Python `add_input_sequence(cachepath, accession, aa_query, nt_query)`: executes
`SQL_ADDSEQ` in its own transaction and returns `cur.lastrowid`.  Rows of
`seqdata` are never deleted individually, so the rowid of an appended row is
the new table length. -/
def add_input_sequence (c : Cache) (accession : String)
    (aa_query nt_query : Option String) : Except String (Cache × Nat) := do
  let t ← sql_addseq c.seqdata accession aa_query nt_query
  .ok ({ c with seqdata := t }, t.length)

/-- Statement `SQL_GET_SEQDATA_QUERIES` followed by `cur.fetchone()`:
`SELECT nt_query, aa_query FROM seqdata WHERE accession=?` returns the first
matching row (or `None` when there is none). -/
def sql_get_seqdata_queries (c : Cache) (accession : String) :
    Option (Option String × Option String) :=
  (c.seqdata.find? (fun r => r.accession == accession)).map
    (fun r => (r.nt_query, r.aa_query))

/-- Python `has_query(cachepath, accession)`: returns `False` exactly when
`cur.fetchone() == (None, None)`.  When no row exists `fetchone()` is
`None`, and in Python `None == (None, None)` is `False`, so the function
returns `True`. -/
def has_query (c : Cache) (accession : String) : Bool :=
  match sql_get_seqdata_queries c accession with
  | some (none, none) => false
  | _ => true

/-- Statement `SQL_GET_SEQDATA_NTQUERY` followed by `cur.fetchone()`:
`SELECT nt_query FROM seqdata WHERE accession=?`. -/
def sql_get_seqdata_ntquery (c : Cache) (accession : String) :
    Option (Option String) :=
  (c.seqdata.find? (fun r => r.accession == accession)).map (fun r => r.nt_query)

/-- Python `has_nt_query(cachepath, accession)`: returns `False` exactly when
`cur.fetchone()` is `None`, i.e. when no `seqdata` row exists — a row whose
`nt_query` column is NULL still yields the row `(None,)`, which is not
`None`. -/
def has_nt_query (c : Cache) (accession : String) : Bool :=
  (sql_get_seqdata_ntquery c accession).isSome

/-- Statement `SQL_ADD_NT_UID`: `INSERT INTO nt_uid_acc (uid, accession)
VALUES (?, ?)`.  `uid` is the primary key, so inserting a duplicate raises
`sqlite3.IntegrityError`. -/
def sql_add_nt_uid (t : List NtUidAccRow) (uid : String)
    (accession : Option String) : Except String (List NtUidAccRow) :=
  if t.any (fun r => r.uid == uid) then
    .error "IntegrityError: UNIQUE constraint failed: nt_uid_acc.uid"
  else
    .ok (t ++ [{ uid := uid, accession := accession }])

/-- Statement `SQL_ADD_SEQDATA_NT_LINK`: `INSERT INTO seq_nt (accession, uid)
VALUES (?, ?)`.  The primary key is the autoincrement `seq_nt_id` and
SQLite does not enforce foreign keys unless `PRAGMA foreign_keys=ON` is
issued (the code never issues it), so this insert always succeeds. -/
def sql_add_seqdata_nt_link (t : List SeqNtRow) (accession uid : String) :
    List SeqNtRow :=
  t ++ [{ accession := accession, uid := uid }]

/-- The loop body of `add_ncbi_uids`: for each uid, execute `SQL_ADD_NT_UID`
with a NULL accession, append `cur.fetchone()` — which is always `None`
after an `INSERT` — to `results`, then execute `SQL_ADD_SEQDATA_NT_LINK`.
An `IntegrityError` aborts the `with conn:` transaction, rolling back every
insert of the call. -/
def add_ncbi_uids_loop (accession : String) (c : Cache)
    (results : List (Option String)) :
    List String → Except String (Cache × List (Option String))
  | [] => .ok (c, results)
  | uid :: rest => do
    let t ← sql_add_nt_uid c.nt_uid_acc uid none
    add_ncbi_uids_loop accession
      { c with nt_uid_acc := t,
               seq_nt := sql_add_seqdata_nt_link c.seq_nt accession uid }
      (results ++ [none]) rest

/-- Python `add_ncbi_uids(cachepath, accession, uids)`: add a collection of nt UIDs
to the cache for one record, in a single transaction, returning the list of
`cur.fetchone()` results. -/
def add_ncbi_uids (c : Cache) (accession : String) (uids : List String) :
    Except String (Cache × List (Option String)) :=
  add_ncbi_uids_loop accession c [] uids

/-- Statement `SQL_GET_NOACC_UIDS`: `SELECT uid FROM nt_uid_acc WHERE accession IS
NULL`. -/
def get_nt_noacc_uids (c : Cache) : List String :=
  (c.nt_uid_acc.filter (fun r => r.accession == none)).map (fun r => r.uid)

/-- SQL three-valued `x NOT IN (S)` as a row filter, for `S` free of NULLs
(`gb_headers.accession` is declared NOT NULL): over an empty `S` the
predicate is TRUE whatever `x` is, NULL included; over a nonempty `S` a
NULL `x` makes the predicate NULL, which does not select the row. -/
def sql_not_in (x : Option String) (s : List String) : Bool :=
  if s.isEmpty then true
  else
    match x with
    | none => false
    | some a => !(s.contains a)

/-- Statement `SQL_GET_NOGBHEAD_UIDS`: `SELECT uid FROM nt_uid_acc WHERE accession
NOT IN (SELECT accession FROM gb_headers)`. -/
def get_nogbhead_nt_uids (c : Cache) : List String :=
  (c.nt_uid_acc.filter
      (fun r => sql_not_in r.accession (c.gb_headers.map (fun g => g.accession)))).map
    (fun r => r.uid)

/-- Statement `SQL_UPDATE_UID_ACC`: `UPDATE nt_uid_acc SET accession=? WHERE uid=?`.
An `UPDATE` that matches no row succeeds and changes nothing. -/
def sql_update_uid_acc (t : List NtUidAccRow) (accession uid : String) :
    List NtUidAccRow :=
  t.map (fun r => if r.uid == uid then { r with accession := some accession } else r)

/-- Python `update_nt_uid_acc(cachepath, uid, accession)`: executes
`SQL_UPDATE_UID_ACC` and returns `[cur.fetchone()]`; `fetchone()` after an
`UPDATE` is always `None`, and the call never raises. -/
def update_nt_uid_acc (c : Cache) (uid accession : String) :
    Except String (Cache × List (Option String)) :=
  .ok ({ c with nt_uid_acc := sql_update_uid_acc c.nt_uid_acc accession uid },
       [(none : Option String)])

/-- An input sequence record (a Biopython `SeqRecord` at the interface
level): id, description and residue string. -/
structure SeqRecord where
  id : String
  description : String
  seq : String
  deriving Repr, DecidableEq

/-- A GenBank feature: a type tag plus string-keyed qualifier lists, per
spec section 6 ("feature list with type, coordinates, strand, genetic-code,
and string-keyed qualifier lists"); coordinates and strand live inside the
abstracted extraction collaborator. -/
structure Feature where
  type : String
  qualifiers : List (String × List String)
  deriving Repr, DecidableEq

/-- A parsed GenBank record: id and feature list. -/
structure GbRecord where
  id : String
  features : List Feature
  deriving Repr, DecidableEq

/-- Flags of the CLI argument namespace consumed by
`extract_cds_features`. -/
structure Args where
  stockholm : Bool
  unify_seqid : Bool
  alternative_start_codon : Bool
  deriving Repr, DecidableEq

/-- Collaborators imported by `ncfp.py` from modules outside the embedded
sources: `find_record_cds` and `get_aa_query` (cache read paths, composed
with the out-of-scope GenBank text parsing, spec section 1), and
`extract_feature_cds` (coordinate extraction and translation, which returns
a nucleotide record and a translated protein string, or nothing at all).
`extract_cds_features` is parametric in their behavior. -/
structure Env where
  find_record_cds : String → List GbRecord
  get_aa_query : String → Option String
  extract_feature_cds : Feature → GbRecord → List Int → Args → Option (SeqRecord × String)

/-- Values of one qualifier key of a feature (a missing key reads as the
empty list). -/
def qualVals (f : Feature) (key : String) : List String :=
  match f.qualifiers.find? (fun q => q.fst == key) with
  | some q => q.snd
  | none => []

/-- Python `feature.qualifiers[key][0]`: a missing key raises `KeyError`
and an empty qualifier list raises `IndexError`. -/
def qualFirst (f : Feature) (key : String) : Except String String :=
  match f.qualifiers.find? (fun q => q.fst == key) with
  | none => .error ("KeyError: " ++ key)
  | some (_, []) => .error ("IndexError: " ++ key)
  | some (_, v :: _) => .ok v

/-- Modelled from the spec: `extract_feature_by_locus_tag` is imported from
`ncbi_cds_from_protein.sequences`, which is not among the embedded sources.
Per spec section 4.3 step 1 it searches "the record's feature list for a
feature whose locus-tag qualifier equals that identifier". -/
def extract_feature_by_locus_tag (gb : GbRecord) (tag : String) : Option Feature :=
  gb.features.find? (fun f => (qualVals f "locus_tag").contains tag)

/-- Modelled from the spec: `extract_feature_by_protein_id` is imported
from `ncbi_cds_from_protein.sequences`, which is not among the embedded
sources.  Per spec section 4.3 step 3 it searches the feature list "by
protein-identifier qualifier" equal to the given value. -/
def extract_feature_by_protein_id (gb : GbRecord) (pid : String) : Option Feature :=
  gb.features.find? (fun f => (qualVals f "protein_id").contains pid)

/-- Modelled from the spec: `extract_feature_by_gene_id` is imported from
`ncbi_cds_from_protein.sequences`, which is not among the embedded sources.
Per spec section 4.3 step 4 it searches the feature list "by a
gene-identifier qualifier" equal to the given gene name. -/
def extract_feature_by_gene_id (gb : GbRecord) (gid : String) : Option Feature :=
  gb.features.find? (fun f => (qualVals f "gene").contains gid)

/-- Splitting accumulator for `pySplit`. -/
def splitOnCharAux (sep : Char) : List Char → List Char → List (List Char)
  | [], acc => [acc.reverse]
  | c :: rest, acc =>
    if c == sep then acc.reverse :: splitOnCharAux sep rest []
    else splitOnCharAux sep rest (c :: acc)

/-- Python `s.split(sep)` for a one-character separator (the only kind the
code uses: "/" and "-"); splitting never yields an empty list. -/
def pySplit (s : String) (sep : Char) : List String :=
  (splitOnCharAux sep s.data []).map String.mk

/-- Decides whether a string is a nonempty run of decimal digits. -/
def isDigits (s : String) : Bool :=
  !s.data.isEmpty && s.data.all Char.isDigit

/-- Modelled from the spec: `strip_stockholm_from_seqid` is imported from
`ncbi_cds_from_protein.sequences`, which is not among the embedded sources.
Per spec section 4.3 step 3 it removes from an accession "any trailing
domain-range suffix" of the form `/start-end`. -/
def strip_stockholm_from_seqid (sid : String) : String :=
  let parts := pySplit sid '/'
  if parts.length < 2 then sid
  else
    match pySplit (parts.getLastD "") '-' with
    | [s, e] =>
      if isDigits s && isDigits e then String.intercalate "/" parts.dropLast else sid
    | _ => sid

/-- Modelled from the spec: the gene-name search `re.search(re_uniprot_gn,
record.description)` uses a pattern from `ncbi_cds_from_protein.sequences`,
which is not among the embedded sources.  Per spec section 4.3 step 2 the
marker is "a `GN=` token followed by a contiguous non-whitespace
identifier"; the match value is that identifier. -/
def findGN : List Char → Option String
  | [] => none
  | c :: rest =>
    match c, rest with
    | 'G', 'N' :: '=' :: tail =>
      let tok := tail.takeWhile (fun ch => !ch.isWhitespace)
      if tok.isEmpty then findGN rest else some (String.mk tok)
    | _, _ => findGN rest

/-- The gene-name marker match over a record description. -/
def uniprot_gn_match (desc : String) : Option String :=
  findGN desc.data

/-- Numeric value of a digit run. -/
def digitsVal (s : String) : Int :=
  s.data.foldl (fun n ch => n * 10 + (Int.ofNat ch.toNat - 48)) 0

/-- Python `int(e)` on a piece of the Stockholm location suffix: raises
`ValueError` unless the piece is a digit run. -/
def pyInt (s : String) : Except String Int :=
  if isDigits s then .ok (digitsVal s) else .error ("ValueError: " ++ s)

/-- Lines 236-241 of `ncfp.py`: `locdata = record.id.split("/")[-1]`
followed by `stockholm = [int(e) for e in locdata.split("-")]`. -/
def parse_stockholm (sid : String) : Except String (List Int) :=
  (pySplit ((pySplit sid '/').getLastD "") '-').mapM pyInt

/-- Python `seq.replace("-", "").upper()` on a residue string. -/
def degap_upper (s : String) : String :=
  String.mk ((s.data.filter (fun ch => ch != '-')).map Char.toUpper)

/-- Lines 166-224 of `extract_cds_features` in `ncfp.py`: the ordered
fallback chain locating the CDS feature for one input record.  `aaq` is the
cached AA query identifier, `desc` and `rid` the input record's description
and id, `gb` the parsed GenBank record.  The single-CDS last resort indexes
`cds_features[0].qualifiers["protein_id"][0]`, which raises when that
qualifier is absent. -/
def locate_feature (aaq : Option String) (desc rid : String) (gb : GbRecord) :
    Except String (Option Feature) :=
  let gn := uniprot_gn_match desc
  let feature0 : Option Feature :=
    match aaq with
    | some q => extract_feature_by_locus_tag gb q
    | none => none
  let step23 : Option Feature × Option String :=
    match feature0 with
    | some f => (some f, none)
    | none =>
      match gn with
      | some g =>
        (match extract_feature_by_locus_tag gb g with
         | some f => some f
         | none => extract_feature_by_protein_id gb g,
         some g)
      | none =>
        (extract_feature_by_protein_id gb (strip_stockholm_from_seqid rid), none)
  let feature4 : Option Feature :=
    match step23.1, step23.2 with
    | none, some g => extract_feature_by_gene_id gb g
    | f, _ => f
  match feature4 with
  | some f => .ok (some f)
  | none =>
    match gb.features.filter (fun f => f.type == "CDS") with
    | [cds0] => do
      let pid ← qualFirst cds0 "protein_id"
      .ok (extract_feature_by_protein_id gb pid)
    | _ => .ok none

/-- One iteration of the loop of `extract_cds_features` (lines 136-283 of
`ncfp.py`) over one input record: yields `some` pairing when the record is
matched and verified, `none` when it is skipped for any per-record reason
(no candidate, more than one candidate, no feature, failed extraction,
failed verification), and an error when the Python code would raise. -/
def process_record (env : Env) (args : Args) (record : SeqRecord) :
    Except String (Option (SeqRecord × SeqRecord)) :=
  match env.find_record_cds record.id with
  | [] => .ok none
  | [gb] => do
    let featOpt ← locate_feature (env.get_aa_query record.id) record.description record.id gb
    match featOpt with
    | none => .ok none
    | some feature => do
      let _ ← qualFirst feature "protein_id"
      let stockholm ← if args.stockholm then parse_stockholm record.id else .ok []
      match env.extract_feature_cds feature gb stockholm args with
      | none => .ok none
      | some (ntseq0, aaseq) => do
        let ntseq ←
          if args.unify_seqid then
            .ok { ntseq0 with id := record.id }
          else if args.stockholm then
            match stockholm with
            | a :: b :: _ =>
              .ok { ntseq0 with id :=
                      ntseq0.id ++ "/" ++ toString (a * 3 - 2) ++ "-" ++ toString (b * 3) }
            | _ => .error "IndexError: stockholm"
          else
            .ok ntseq0
        if aaseq == degap_upper record.seq then
          .ok (some (record, ntseq))
        else if args.alternative_start_codon
            && aaseq.drop 1 == (degap_upper record.seq).drop 1 then
          .ok (some (record, ntseq))
        else
          .ok none
  | _ :: _ :: _ => .ok none

/-- Python `extract_cds_features(seqrecords, cachepath, args)`: folds
`process_record` over the input records in order, accumulating the verified
(protein, nucleotide-CDS) pairings; an exception raised for any record
propagates out of the whole call. -/
def extract_cds_features (env : Env) (args : Args) :
    List SeqRecord → Except String (List (SeqRecord × SeqRecord))
  | [] => .ok []
  | record :: rest => do
    let head ← process_record env args record
    let tail ← extract_cds_features env args rest
    match head with
    | some p => .ok (p :: tail)
    | none => .ok tail

/-! ## General lemmas about the row-list operations -/

theorem isSome_map_find? {α β : Type} (f : α → β) (p : α → Bool) (l : List α) :
    ((l.find? p).map f).isSome = l.any p := by
  induction l with
  | nil => rfl
  | cons a t ih =>
    cases hpa : p a <;> simp [List.find?_cons, hpa, ih]

theorem sql_not_in_iff_of_ne_nil (s : List String) (hs : s ≠ [])
    (x : Option String) :
    sql_not_in x s = true ↔ ∃ a, x = some a ∧ a ∉ s := by
  cases s with
  | nil => exact absurd rfl hs
  | cons b t =>
    cases x with
    | none => simp [sql_not_in]
    | some a => simp [sql_not_in, List.elem_iff]

/-! ## Claims about the cache store -/

/-- A cache in the standard mid-pipeline state: one discovered UID whose
accession is still NULL, and no `gb_headers` rows yet. -/
def cacheNoHeaders : Cache :=
  { seqdata := [], seq_nt := [{ accession := "A1", uid := "u1" }],
    nt_uid_acc := [{ uid := "u1", accession := none }], gb_headers := [] }

/-- A cache whose UID "u1" resolved to the headered accession "AC1" and
"u2" to the unheadered "AC2", while "u3" is still unresolved. -/
def cacheOneHeader : Cache :=
  { seqdata := [], seq_nt := [],
    nt_uid_acc := [{ uid := "u1", accession := some "AC1" },
                   { uid := "u2", accession := some "AC2" },
                   { uid := "u3", accession := none }],
    gb_headers := [{ accession := "AC1", length := 100, organism := "o",
                     taxonomy := "t", date := "d" }] }

/-- Counterexample to C2 as stated: with `gb_headers` empty — the state
between UID discovery and header fetch — `accession NOT IN (SELECT
accession FROM gb_headers)` is TRUE even for a NULL accession, so
`get_nogbhead_nt_uids` returns "u1" although no UID in the cache has a
resolved accession. -/
theorem nogbhead_includes_unresolved_uid :
    "u1" ∈ get_nogbhead_nt_uids cacheNoHeaders ∧
    ∀ r ∈ cacheNoHeaders.nt_uid_acc, r.accession = none := by
  constructor
  · decide
  · decide

/-- C2 as amended: `get_nt_noacc_uids` returns exactly the UIDs whose
`nt_uid_acc.accession` is NULL.  `get_nogbhead_nt_uids` returns, when
`gb_headers` is nonempty, exactly the UIDs whose resolved accession has no
`gb_headers` row (three-valued `NOT IN` drops NULL-accession UIDs); but
when `gb_headers` is empty, `NOT IN` over the empty set is TRUE for every
row, so every UID is returned — including those with no resolved accession
(see the counterexample). -/
theorem work_queue_exactness (c : Cache) (uid : String) :
    (uid ∈ get_nt_noacc_uids c ↔
      ∃ r ∈ c.nt_uid_acc, r.uid = uid ∧ r.accession = none) ∧
    (c.gb_headers = [] →
      (uid ∈ get_nogbhead_nt_uids c ↔ ∃ r ∈ c.nt_uid_acc, r.uid = uid)) ∧
    (c.gb_headers ≠ [] →
      (uid ∈ get_nogbhead_nt_uids c ↔
        ∃ r ∈ c.nt_uid_acc, r.uid = uid ∧
          ∃ a, r.accession = some a ∧ ∀ g ∈ c.gb_headers, g.accession ≠ a)) := by
  refine ⟨?_, ?_, ?_⟩
  · simp only [get_nt_noacc_uids, List.mem_map, List.mem_filter, beq_iff_eq]
    constructor
    · rintro ⟨r, ⟨hr, hacc⟩, huid⟩
      exact ⟨r, hr, huid, hacc⟩
    · rintro ⟨r, hr, huid, hacc⟩
      exact ⟨r, ⟨hr, hacc⟩, huid⟩
  · intro hnil
    simp [get_nogbhead_nt_uids, hnil, sql_not_in, List.mem_map]
  · intro hne
    have hmapne : c.gb_headers.map (fun g => g.accession) ≠ [] := by
      intro hcontra
      exact hne (List.map_eq_nil.mp hcontra)
    simp only [get_nogbhead_nt_uids, List.mem_map, List.mem_filter,
      sql_not_in_iff_of_ne_nil _ hmapne]
    constructor
    · rintro ⟨r, ⟨hr, a, hacc, hnot⟩, huid⟩
      exact ⟨r, hr, huid, a, hacc, fun g hg hge => hnot ⟨g, hg, hge⟩⟩
    · rintro ⟨r, hr, huid, a, hacc, hnot⟩
      refine ⟨r, ⟨hr, a, hacc, ?_⟩, huid⟩
      rintro ⟨g, hg, hge⟩
      exact hnot g hg hge

/-- Witness for C2-as-amended at concrete caches: with no headers the
unresolved UID "u1" is in the work queue; with one header the resolved but
unheadered "u2" is. -/
theorem work_queue_exactness_w :
    "u1" ∈ get_nogbhead_nt_uids cacheNoHeaders ∧
    "u2" ∈ get_nogbhead_nt_uids cacheOneHeader :=
  ⟨((work_queue_exactness cacheNoHeaders "u1").2.1 rfl).mpr
     ⟨{ uid := "u1", accession := none }, by decide, rfl⟩,
   ((work_queue_exactness cacheOneHeader "u2").2.2 (by decide)).mpr
     ⟨{ uid := "u2", accession := some "AC2" }, by decide, rfl, "AC2", rfl,
       by decide⟩⟩

/-- C10: `has_nt_query` tests row existence, not presence of a nucleotide
query — it is `true` exactly when a `seqdata` row exists for the accession,
even when that row's `nt_query` field is NULL; and `has_query` returns
`true` for an accession with no `seqdata` row at all. -/
theorem has_query_row_existence (c : Cache) (acc : String) :
    (has_nt_query c acc = c.seqdata.any (fun r => r.accession == acc)) ∧
    ((∀ r ∈ c.seqdata, r.accession ≠ acc) → has_query c acc = true) := by
  constructor
  · exact isSome_map_find? (fun r => r.nt_query) (fun r => r.accession == acc) c.seqdata
  · intro h
    have hfind : c.seqdata.find? (fun r => r.accession == acc) = none := by
      rw [List.find?_eq_none]
      intro r hr
      simp [h r hr]
    simp [has_query, sql_get_seqdata_queries, hfind]

/-- A fixture cache with one `seqdata` row whose queries are both NULL. -/
def cacheNullRow : Cache :=
  { seqdata := [{ accession := "A1", aa_query := none, nt_query := none }],
    seq_nt := [], nt_uid_acc := [], gb_headers := [] }

/-- Witness for C10 at a concrete cache: the accession "A1" has a row with
NULL `nt_query` yet `has_nt_query` is `true`, and "B9" has no row yet
`has_query` is `true`. -/
theorem has_query_row_existence_w :
    (has_nt_query cacheNullRow "A1" =
      cacheNullRow.seqdata.any (fun r => r.accession == "A1")) ∧
    has_query cacheNullRow "B9" = true :=
  ⟨(has_query_row_existence cacheNullRow "A1").1,
   (has_query_row_existence cacheNullRow "B9").2 (by decide)⟩

/-- Counterexample to C3 as stated: updating a UID absent from
`nt_uid_acc` does not raise — the `UPDATE` succeeds, matches no row, and
the cache is unchanged. -/
theorem update_unknown_uid_silently_succeeds :
    update_nt_uid_acc initialise_dbcache "123456" "AB012345" =
      .ok (initialise_dbcache, [(none : Option String)]) := rfl

/-- C3 as amended: `update_nt_uid_acc` never fails; for a UID not present
in `nt_uid_acc` it is a silent no-op, and for every present UID it sets the
accession field. -/
theorem update_nt_uid_acc_spec (c : Cache) (uid acc : String) :
    ((∀ r ∈ c.nt_uid_acc, r.uid ≠ uid) →
      update_nt_uid_acc c uid acc = .ok (c, [(none : Option String)])) ∧
    (∃ c', update_nt_uid_acc c uid acc = .ok (c', [(none : Option String)]) ∧
      ∀ r ∈ c.nt_uid_acc, r.uid = uid →
        ({ r with accession := some acc } : NtUidAccRow) ∈ c'.nt_uid_acc) := by
  constructor
  · intro h
    have hmap : sql_update_uid_acc c.nt_uid_acc acc uid = c.nt_uid_acc := by
      unfold sql_update_uid_acc
      rw [List.map_congr_left (g := id), List.map_id]
      intro r hr
      simp [h r hr]
    simp [update_nt_uid_acc, hmap]
  · refine ⟨_, rfl, fun r hr huid => ?_⟩
    have : ({ r with accession := some acc } : NtUidAccRow) =
        (fun r => if r.uid == uid then { r with accession := some acc } else r) r := by
      simp [huid]
    rw [this]
    exact List.mem_map_of_mem _ hr

/-- A fixture cache with a single pending UID "u1". -/
def cachePendingUid : Cache :=
  { seqdata := [], seq_nt := [{ accession := "A1", uid := "u1" }],
    nt_uid_acc := [{ uid := "u1", accession := none }], gb_headers := [] }

/-- Witness for C3-as-amended at concrete inputs: an unknown UID is a
no-op and a known UID gets its accession set. -/
theorem update_nt_uid_acc_spec_w :
    update_nt_uid_acc cachePendingUid "u9" "AC1" =
      .ok (cachePendingUid, [(none : Option String)]) ∧
    (∃ c', update_nt_uid_acc cachePendingUid "u1" "AC1" =
        .ok (c', [(none : Option String)]) ∧
      ∀ r ∈ cachePendingUid.nt_uid_acc, r.uid = "u1" →
        ({ r with accession := some "AC1" } : NtUidAccRow) ∈ c'.nt_uid_acc) :=
  ⟨(update_nt_uid_acc_spec cachePendingUid "u9" "AC1").1 (by decide),
   (update_nt_uid_acc_spec cachePendingUid "u1" "AC1").2⟩

/-- C9: re-adding an accession already present in `seqdata` fails with an
`IntegrityError` (never a silent duplicate), and a successful insert can
only happen when the accession was absent, leaving exactly one row for
it. -/
theorem add_input_sequence_no_duplicate (c : Cache) (acc : String)
    (aa nt : Option String) :
    (c.seqdata.any (fun r => r.accession == acc) = true →
      (add_input_sequence c acc aa nt).isOk = false) ∧
    (∀ c' n, add_input_sequence c acc aa nt = .ok (c', n) →
      (c'.seqdata.filter (fun r => r.accession == acc)).length = 1 ∧
      (c.seqdata.filter (fun r => r.accession == acc)).length = 0) := by
  constructor
  · intro h
    simp [add_input_sequence, sql_addseq, h, Except.isOk, Except.toBool,
      Bind.bind, Except.bind]
  · intro c' n hok
    cases hany : c.seqdata.any (fun r => r.accession == acc) with
    | true =>
      simp [add_input_sequence, sql_addseq, hany, Bind.bind, Except.bind] at hok
    | false =>
      have hnil : c.seqdata.filter (fun r => r.accession == acc) = [] := by
        rw [List.filter_eq_nil_iff]
        intro r hr
        simpa using (List.any_eq_false.mp hany) r hr
      have hcomp : add_input_sequence c acc aa nt =
          Except.ok (({ c with seqdata :=
              c.seqdata ++ [{ accession := acc, aa_query := aa, nt_query := nt }] } : Cache),
            (c.seqdata ++ [({ accession := acc, aa_query := aa, nt_query := nt } : SeqDataRow)]).length) := by
        simp [add_input_sequence, sql_addseq, hany, Bind.bind, Except.bind]
      rw [hcomp] at hok
      simp only [Except.ok.injEq, Prod.mk.injEq] at hok
      obtain ⟨hc', -⟩ := hok
      constructor
      · rw [← hc']
        simp [List.filter_append, hnil]
      · simp [hnil]

/-- Witness for C9 at concrete inputs: the second insert of "A1" fails, and
the first leaves exactly one "A1" row. -/
theorem add_input_sequence_no_duplicate_w :
    (add_input_sequence cacheNullRow "A1" none none).isOk = false ∧
    ((cacheNullRow.seqdata.filter (fun r => r.accession == "A1")).length = 1 ∧
      (initialise_dbcache.seqdata.filter (fun r => r.accession == "A1")).length = 0) :=
  ⟨(add_input_sequence_no_duplicate cacheNullRow "A1" none none).1 (by decide),
   (add_input_sequence_no_duplicate initialise_dbcache "A1" none none).2
     cacheNullRow 1 rfl⟩

theorem add_ncbi_uids_loop_ok (acc : String) (uids : List String) :
    ∀ (c : Cache) (res : List (Option String)),
      uids.Nodup →
      (∀ u ∈ uids, ∀ r ∈ c.nt_uid_acc, r.uid ≠ u) →
      add_ncbi_uids_loop acc c res uids =
        .ok (({ c with
                 nt_uid_acc :=
                   c.nt_uid_acc ++ uids.map (fun u => { uid := u, accession := none }),
                 seq_nt :=
                   c.seq_nt ++ uids.map (fun u => { accession := acc, uid := u }) } : Cache),
             res ++ List.replicate uids.length none) := by
  induction uids with
  | nil =>
    intro c res _ _
    simp [add_ncbi_uids_loop]
  | cons u rest ih =>
    intro c res hnodup hfresh
    have hany : c.nt_uid_acc.any (fun r => r.uid == u) = false := by
      rw [List.any_eq_false]
      intro r hr
      simpa using hfresh u (by simp) r hr
    have hfresh' : ∀ v ∈ rest,
        ∀ r ∈ c.nt_uid_acc ++ [({ uid := u, accession := none } : NtUidAccRow)],
          r.uid ≠ v := by
      intro v hv r hr
      rcases List.mem_append.mp hr with hr | hr
      · exact hfresh v (by simp [hv]) r hr
      · have hru : r = { uid := u, accession := none } := by simpa using hr
        rw [hru]
        intro hcontra
        have hc2 : u = v := hcontra
        exact (List.nodup_cons.mp hnodup).1 (hc2 ▸ hv)
    have hrec := ih
      ({ c with nt_uid_acc := c.nt_uid_acc ++ [{ uid := u, accession := none }],
                seq_nt := sql_add_seqdata_nt_link c.seq_nt acc u } : Cache)
      (res ++ [none]) (List.nodup_cons.mp hnodup).2 hfresh'
    simp only [sql_add_seqdata_nt_link] at hrec
    simp only [add_ncbi_uids_loop, sql_add_nt_uid, hany, Bool.false_eq_true, if_false,
      sql_add_seqdata_nt_link, Bind.bind, Except.bind]
    rw [hrec]
    simp [List.append_assoc, List.replicate_succ]

theorem add_ncbi_uids_loop_dup (acc : String) (uids : List String) :
    ∀ (c : Cache) (res : List (Option String)),
      (∃ u ∈ uids, ∃ r ∈ c.nt_uid_acc, r.uid = u) →
      (add_ncbi_uids_loop acc c res uids).isOk = false := by
  induction uids with
  | nil =>
    intro c res h
    simp at h
  | cons u rest ih =>
    intro c res h
    cases hany : c.nt_uid_acc.any (fun r => r.uid == u) with
    | true =>
      simp [add_ncbi_uids_loop, sql_add_nt_uid, hany, Bind.bind, Except.bind,
        Except.isOk, Except.toBool]
    | false =>
      obtain ⟨v, hv, r, hr, hrv⟩ := h
      have hvrest : v ∈ rest := by
        rcases List.mem_cons.mp hv with hv | hv
        · exfalso
          have := (List.any_eq_false.mp hany) r hr
          rw [hv] at hrv
          simp [hrv] at this
        · exact hv
      have hdup' : ∃ w ∈ rest,
          ∃ s ∈ c.nt_uid_acc ++ [({ uid := u, accession := none } : NtUidAccRow)],
            s.uid = w :=
        ⟨v, hvrest, r, List.mem_append.mpr (Or.inl hr), hrv⟩
      have hrec := ih
        ({ c with nt_uid_acc := c.nt_uid_acc ++ [{ uid := u, accession := none }],
                  seq_nt := sql_add_seqdata_nt_link c.seq_nt acc u } : Cache)
        (res ++ [none]) hdup'
      simpa [add_ncbi_uids_loop, sql_add_nt_uid, hany, sql_add_seqdata_nt_link,
        Bind.bind, Except.bind] using hrec

/-- A fixture cache in which UID "u1" is already present and linked. -/
def cacheUidPresent : Cache :=
  { seqdata := [], seq_nt := [{ accession := "A1", uid := "u1" }],
    nt_uid_acc := [{ uid := "u1", accession := none }], gb_headers := [] }

/-- Counterexample to C1 as stated: re-adding the already-present UID "u1"
does not skip it — the `INSERT` raises an `IntegrityError` and the call
fails; and even a successful call returns a list of `None` placeholders
(one per UID attempted), not the set of UIDs actually inserted. -/
theorem add_ncbi_uids_cex :
    (add_ncbi_uids cacheUidPresent "A2" ["u1"]).isOk = false ∧
    add_ncbi_uids initialise_dbcache "A1" ["u1"] =
      .ok (cacheUidPresent, [(none : Option String)]) := by
  constructor
  · rfl
  · rfl

/-- C1 as amended: `add_ncbi_uids` attempts to insert every given UID; when
the UIDs are pairwise distinct and none is already cached it inserts, for
each, a `nt_uid_acc` row with NULL accession and a `seq_nt` link row, and
returns one `None` placeholder per UID (not the set inserted); when any UID
is already cached the whole call fails with an `IntegrityError` (and the
transaction rolls back), so a link row is never duplicated. -/
theorem add_ncbi_uids_spec (c : Cache) (acc : String) (uids : List String) :
    (uids.Nodup →
      (∀ u ∈ uids, ∀ r ∈ c.nt_uid_acc, r.uid ≠ u) →
      add_ncbi_uids c acc uids =
        .ok (({ c with
                 nt_uid_acc :=
                   c.nt_uid_acc ++ uids.map (fun u => { uid := u, accession := none }),
                 seq_nt :=
                   c.seq_nt ++ uids.map (fun u => { accession := acc, uid := u }) } : Cache),
             List.replicate uids.length none)) ∧
    ((∃ u ∈ uids, ∃ r ∈ c.nt_uid_acc, r.uid = u) →
      (add_ncbi_uids c acc uids).isOk = false) := by
  constructor
  · intro hnodup hfresh
    have := add_ncbi_uids_loop_ok acc uids c [] hnodup hfresh
    simpa [add_ncbi_uids] using this
  · intro hdup
    exact add_ncbi_uids_loop_dup acc uids c [] hdup

/-- Witness for C1-as-amended at concrete inputs: two fresh UIDs insert
rows and links and return two `None` placeholders; a cached UID makes the
call fail. -/
theorem add_ncbi_uids_spec_w :
    add_ncbi_uids initialise_dbcache "A1" ["u1", "u2"] =
      .ok (({ initialise_dbcache with
               nt_uid_acc :=
                 initialise_dbcache.nt_uid_acc ++
                   (["u1", "u2"].map (fun u => { uid := u, accession := none })),
               seq_nt :=
                 initialise_dbcache.seq_nt ++
                   (["u1", "u2"].map (fun u => { accession := "A1", uid := u })) } : Cache),
           List.replicate (["u1", "u2"].length) none) ∧
    (add_ncbi_uids cacheUidPresent "A3" ["u1"]).isOk = false :=
  ⟨(add_ncbi_uids_spec initialise_dbcache "A1" ["u1", "u2"]).1 (by decide)
     (by intro u hu r hr; simp [initialise_dbcache] at hr),
   (add_ncbi_uids_spec cacheUidPresent "A3" ["u1"]).2
     ⟨"u1", by decide, { uid := "u1", accession := none }, by decide, rfl⟩⟩

/-! ## Claims about the feature matcher -/

/-- CLI flags with domain-range, unification and alternative-start all
disabled. -/
def argsPlain : Args :=
  { stockholm := false, unify_seqid := false, alternative_start_codon := false }

/-- CLI flags with the Stockholm domain-range flag set and unification
disabled. -/
def argsStock : Args :=
  { stockholm := true, unify_seqid := false, alternative_start_codon := false }

/-- CLI flags with both the Stockholm domain-range flag and identifier
unification set. -/
def argsUnifyStock : Args :=
  { stockholm := true, unify_seqid := true, alternative_start_codon := false }

/-- A CDS feature carrying no `protein_id` qualifier. -/
def featNoPid : Feature :=
  { type := "CDS", qualifiers := [("translation", ["M"])] }

/-- A record whose sole CDS feature lacks a `protein_id` qualifier. -/
def gbSoleCds : GbRecord := { id := "G4", features := [featNoPid] }

/-- A plain NCBI-style input record matching nothing in `gbSoleCds`. -/
def recPlain : SeqRecord := { id := "Y", description := "none here", seq := "M" }

/-- Collaborators for the sole-CDS-without-protein-id scenario. -/
def envSoleCds : Env :=
  { find_record_cds := fun _ => [gbSoleCds],
    get_aa_query := fun _ => none,
    extract_feature_cds := fun _ _ _ _ => none }

/-- Counterexample to C4 as stated: on a record whose sole CDS feature
lacks a `protein_id` qualifier and which no fallback rule matches, the
last-resort lookup `cds_features[0].qualifiers["protein_id"][0]` raises a
`KeyError`, aborting `extract_cds_features` instead of skipping the
input. -/
theorem single_cds_without_protein_id_raises :
    extract_cds_features envSoleCds argsPlain [recPlain] =
      .error "KeyError: protein_id" := rfl

/-- The nucleotide record returned by the extraction collaborator in the
Stockholm fixtures. -/
def ntFixture : SeqRecord := { id := "NT1", description := "D", seq := "atggct" }

/-- A CDS feature whose `protein_id` is the stripped input accession
"X". -/
def featP7 : Feature := { type := "CDS", qualifiers := [("protein_id", ["X"])] }

/-- A record whose single CDS feature matches accession "X". -/
def gbP7 : GbRecord := { id := "G7", features := [featP7] }

/-- An input carrying the domain-range suffix `/5-20`. -/
def recStock : SeqRecord := { id := "X/5-20", description := "d", seq := "MA" }

/-- Collaborators for the Stockholm-suffix scenarios: extraction yields
`ntFixture` translating to "MA". -/
def envStock : Env :=
  { find_record_cds := fun _ => [gbP7],
    get_aa_query := fun _ => none,
    extract_feature_cds := fun _ _ _ _ => some (ntFixture, "MA") }

/-- Counterexample to C7 as stated: with the Stockholm flag set but
identifier unification also enabled, the output identifier is the input
identifier "X/5-20" unchanged, not the recomputed codon range
`/(5*3-2)-(20*3)` = `/13-60`. -/
theorem stockholm_with_unify_keeps_input_id :
    extract_cds_features envStock argsUnifyStock [recStock] =
      .ok [(recStock, { id := "X/5-20", description := "D", seq := "atggct" })] ∧
    ("X/5-20" : String) ≠ "X/13-60" := by
  constructor
  · rfl
  · decide

theorem extract_cds_features_cons_skip (env : Env) (args : Args)
    (record : SeqRecord) (rest : List SeqRecord)
    (h : process_record env args record = .ok none) :
    extract_cds_features env args (record :: rest) =
      extract_cds_features env args rest := by
  simp only [extract_cds_features, h, Bind.bind, Except.bind]
  cases hrest : extract_cds_features env args rest <;> rfl

/-- C8: an input whose cache lookup yields zero stored full records or more
than one is skipped — no pairing is produced for it and the remaining
inputs are processed as if it were absent, without aborting. -/
theorem candidate_cardinality_skip (env : Env) (args : Args)
    (record : SeqRecord) (rest : List SeqRecord)
    (h : (env.find_record_cds record.id).length = 0 ∨
      1 < (env.find_record_cds record.id).length) :
    extract_cds_features env args (record :: rest) =
      extract_cds_features env args rest := by
  have hskip : process_record env args record = .ok none := by
    rcases h with h | h
    · rw [List.length_eq_zero] at h
      simp [process_record, h]
    · cases hres : env.find_record_cds record.id with
      | nil => rw [hres] at h; simp at h
      | cons a t =>
        cases t with
        | nil => rw [hres] at h; simp at h
        | cons b t2 => simp [process_record, hres]
  exact extract_cds_features_cons_skip env args record rest hskip

/-- A GenBank record with no features at all. -/
def gbG : GbRecord := { id := "G", features := [] }

/-- Input records for the cardinality-skip witness. -/
def recB : SeqRecord := { id := "B", description := "d", seq := "M" }

/-- A second input record, with no cached candidate. -/
def recA : SeqRecord := { id := "A", description := "d", seq := "M" }

/-- Collaborators returning two full records for "B" and none
otherwise. -/
def envTwo : Env :=
  { find_record_cds := fun rid => if rid == "B" then [gbG, gbG] else [],
    get_aa_query := fun _ => none,
    extract_feature_cds := fun _ _ _ _ => none }

/-- Witness for C8 at concrete inputs: the ambiguous record "B" (two
cached candidates) contributes nothing and processing continues with
"A". -/
theorem candidate_cardinality_skip_w :
    extract_cds_features envTwo argsPlain [recB, recA] =
      extract_cds_features envTwo argsPlain [recA] :=
  candidate_cardinality_skip envTwo argsPlain recB [recA] (Or.inr (by decide))

/-- C6: when the cached AA query identifier is known and some feature's
locus-tag qualifier equals it, the fallback chain selects that feature,
even when a different feature's protein-identifier qualifier matches the
(stripped) input accession — step 1 runs before step 3. -/
theorem locus_tag_priority (aaq : Option String) (desc rid : String)
    (gb : GbRecord) (q : String) (f f2 : Feature)
    (haa : aaq = some q)
    (hlt : extract_feature_by_locus_tag gb q = some f)
    (hmem : f2 ∈ gb.features) (hne : f2 ≠ f)
    (hpid : (qualVals f2 "protein_id").contains (strip_stockholm_from_seqid rid) = true) :
    locate_feature aaq desc rid gb = .ok (some f) := by
  subst haa
  simp [locate_feature, hlt]

/-- A CDS feature with a matching locus tag and a non-matching protein
id. -/
def featLT : Feature :=
  { type := "CDS", qualifiers := [("locus_tag", ["LT1"]), ("protein_id", ["PX"])] }

/-- A different CDS feature whose protein id matches the input accession
"P6". -/
def featPID : Feature :=
  { type := "CDS", qualifiers := [("protein_id", ["P6"])] }

/-- A record carrying both candidate features of the priority witness. -/
def gbBoth : GbRecord := { id := "G6", features := [featLT, featPID] }

/-- Witness for C6 at concrete inputs: the locus-tag match `featLT` wins
over the protein-id match `featPID`. -/
theorem locus_tag_priority_w :
    locate_feature (some "LT1") "d" "P6" gbBoth = .ok (some featLT) :=
  locus_tag_priority (some "LT1") "d" "P6" gbBoth "LT1" featLT featPID rfl
    (by decide) (by decide) (by decide) (by decide)

theorem locate_feature_none (aaq : Option String) (desc rid : String)
    (gb : GbRecord)
    (h1 : ∀ q, aaq = some q → extract_feature_by_locus_tag gb q = none)
    (h2 : ∀ g, uniprot_gn_match desc = some g →
      extract_feature_by_locus_tag gb g = none ∧
      extract_feature_by_protein_id gb g = none ∧
      extract_feature_by_gene_id gb g = none)
    (h3 : uniprot_gn_match desc = none →
      extract_feature_by_protein_id gb (strip_stockholm_from_seqid rid) = none)
    (h4 : (gb.features.filter (fun f => f.type == "CDS")).length ≠ 1) :
    locate_feature aaq desc rid gb = .ok none := by
  cases aaq with
  | none =>
    cases hgn : uniprot_gn_match desc with
    | none =>
      cases hfilter : gb.features.filter (fun f => f.type == "CDS") with
      | nil => simp [locate_feature, hgn, h3 hgn, hfilter]
      | cons a t =>
        cases t with
        | nil => exact absurd (by simp [hfilter]) h4
        | cons b t2 => simp [locate_feature, hgn, h3 hgn, hfilter]
    | some g =>
      obtain ⟨hg1, hg2, hg3⟩ := h2 g hgn
      cases hfilter : gb.features.filter (fun f => f.type == "CDS") with
      | nil => simp [locate_feature, hgn, hg1, hg2, hg3, hfilter]
      | cons a t =>
        cases t with
        | nil => exact absurd (by simp [hfilter]) h4
        | cons b t2 => simp [locate_feature, hgn, hg1, hg2, hg3, hfilter]
  | some q =>
    have hq := h1 q rfl
    cases hgn : uniprot_gn_match desc with
    | none =>
      cases hfilter : gb.features.filter (fun f => f.type == "CDS") with
      | nil => simp [locate_feature, hq, hgn, h3 hgn, hfilter]
      | cons a t =>
        cases t with
        | nil => exact absurd (by simp [hfilter]) h4
        | cons b t2 => simp [locate_feature, hq, hgn, h3 hgn, hfilter]
    | some g =>
      obtain ⟨hg1, hg2, hg3⟩ := h2 g hgn
      cases hfilter : gb.features.filter (fun f => f.type == "CDS") with
      | nil => simp [locate_feature, hq, hgn, hg1, hg2, hg3, hfilter]
      | cons a t =>
        cases t with
        | nil => exact absurd (by simp [hfilter]) h4
        | cons b t2 => simp [locate_feature, hq, hgn, hg1, hg2, hg3, hfilter]

/-- C4 as amended: when no rule of the fallback chain locates a feature
and the record does not have exactly one CDS feature, the input is skipped
without an exception and processing continues with the next input.  (When
the record has exactly one CDS feature lacking a `protein_id` qualifier,
the code instead raises a `KeyError` — see the counterexample.) -/
theorem no_feature_match_skips (env : Env) (args : Args) (record : SeqRecord)
    (rest : List SeqRecord) (gb : GbRecord)
    (hres : env.find_record_cds record.id = [gb])
    (h1 : ∀ q, env.get_aa_query record.id = some q →
      extract_feature_by_locus_tag gb q = none)
    (h2 : ∀ g, uniprot_gn_match record.description = some g →
      extract_feature_by_locus_tag gb g = none ∧
      extract_feature_by_protein_id gb g = none ∧
      extract_feature_by_gene_id gb g = none)
    (h3 : uniprot_gn_match record.description = none →
      extract_feature_by_protein_id gb (strip_stockholm_from_seqid record.id) = none)
    (h4 : (gb.features.filter (fun f => f.type == "CDS")).length ≠ 1) :
    extract_cds_features env args (record :: rest) =
      extract_cds_features env args rest := by
  have hloc := locate_feature_none (env.get_aa_query record.id) record.description
    record.id gb h1 h2 h3 h4
  have hskip : process_record env args record = .ok none := by
    simp [process_record, hres, hloc, Bind.bind, Except.bind]
  exact extract_cds_features_cons_skip env args record rest hskip

/-- A non-CDS feature matching nothing. -/
def featGene : Feature := { type := "gene", qualifiers := [("note", ["n"])] }

/-- A candidate record with no CDS feature at all. -/
def gbNoCds : GbRecord := { id := "G0", features := [featGene] }

/-- An input record matched by no rule of the fallback chain. -/
def recZ : SeqRecord := { id := "Z", description := "x", seq := "M" }

/-- Collaborators for the no-feature-match witness. -/
def envNoCds : Env :=
  { find_record_cds := fun _ => [gbNoCds],
    get_aa_query := fun _ => none,
    extract_feature_cds := fun _ _ _ _ => none }

/-- Witness for C4-as-amended at concrete inputs: the unmatched record "Z"
is skipped without an error. -/
theorem no_feature_match_skips_w :
    extract_cds_features envNoCds argsPlain [recZ] =
      extract_cds_features envNoCds argsPlain [] :=
  no_feature_match_skips envNoCds argsPlain recZ [] gbNoCds rfl
    (fun q h => Option.noConfusion h)
    (fun g h => Option.noConfusion h)
    (fun _ => rfl)
    (by decide)

theorem process_record_verdict (env : Env) (args : Args) (record : SeqRecord)
    (nt' : SeqRecord) (aaseq : String)
    (hpr : process_record env args record =
      (if aaseq == degap_upper record.seq then Except.ok (some (record, nt'))
       else if args.alternative_start_codon &&
           (aaseq.drop 1 == (degap_upper record.seq).drop 1) then
         Except.ok (some (record, nt'))
       else Except.ok none)) :
    ((∃ nt, process_record env args record = .ok (some (record, nt))) ↔
      (aaseq = degap_upper record.seq ∨
        (args.alternative_start_codon = true ∧
          aaseq.drop 1 = (degap_upper record.seq).drop 1))) ∧
    ((aaseq ≠ degap_upper record.seq ∧
      ¬(args.alternative_start_codon = true ∧
        aaseq.drop 1 = (degap_upper record.seq).drop 1)) →
      process_record env args record = .ok none) := by
  rw [hpr]
  cases hA : (aaseq == degap_upper record.seq) with
  | true =>
    have hA' : aaseq = degap_upper record.seq := by simpa using hA
    constructor
    · simp [hA']
    · intro hcontra
      exact absurd hA' hcontra.1
  | false =>
    have hA' : ¬ aaseq = degap_upper record.seq := by simpa using hA
    cases hB : (args.alternative_start_codon &&
        (aaseq.drop 1 == (degap_upper record.seq).drop 1)) with
    | true =>
      have hB' : args.alternative_start_codon = true ∧
          aaseq.drop 1 = (degap_upper record.seq).drop 1 := by
        simpa [Bool.and_eq_true] using hB
      constructor
      · simp [hA, hB, hB']
      · intro hcontra
        exact absurd hB' hcontra.2
    | false =>
      have hB' : ¬(args.alternative_start_codon = true ∧
          aaseq.drop 1 = (degap_upper record.seq).drop 1) := by
        intro hcontra
        rw [hcontra.1, hcontra.2] at hB
        simp at hB
      constructor
      · simp [hA, hB, hA', hB']
      · intro _
        simp [hA, hB]

/-- C5: once a feature is located and extraction succeeds, a pairing is
produced if and only if the translated sequence equals the input protein
sequence with gap characters removed and upper-cased, or the
alternative-start-codon flag is enabled and the two sequences agree after
dropping the first residue of each; any other mismatch yields no pairing
for the record, without an error. -/
theorem translation_verification_iff (env : Env) (args : Args)
    (record : SeqRecord) (gb : GbRecord) (feature : Feature) (pid0 : String)
    (ntseq0 : SeqRecord) (aaseq : String) (stockholm : List Int)
    (hres : env.find_record_cds record.id = [gb])
    (hloc : locate_feature (env.get_aa_query record.id) record.description
      record.id gb = .ok (some feature))
    (hpid : qualFirst feature "protein_id" = .ok pid0)
    (hstock : (if args.stockholm then parse_stockholm record.id else Except.ok []) =
      .ok stockholm)
    (hext : env.extract_feature_cds feature gb stockholm args = some (ntseq0, aaseq))
    (hlen : args.stockholm = true → args.unify_seqid = false → 2 ≤ stockholm.length) :
    ((∃ nt, process_record env args record = .ok (some (record, nt))) ↔
      (aaseq = degap_upper record.seq ∨
        (args.alternative_start_codon = true ∧
          aaseq.drop 1 = (degap_upper record.seq).drop 1))) ∧
    ((aaseq ≠ degap_upper record.seq ∧
      ¬(args.alternative_start_codon = true ∧
        aaseq.drop 1 = (degap_upper record.seq).drop 1)) →
      process_record env args record = .ok none) := by
  cases hu : args.unify_seqid with
  | true =>
    cases hs : args.stockholm with
    | false =>
      rw [hs] at hstock
      simp only [Bool.false_eq_true, if_false, Except.ok.injEq] at hstock
      subst hstock
      refine process_record_verdict env args record
        { ntseq0 with id := record.id } aaseq ?_
      simp [process_record, hres, hloc, hpid, hext, hs, hu, Bind.bind, Except.bind]
    | true =>
      rw [hs] at hstock
      simp only [if_true] at hstock
      refine process_record_verdict env args record
        { ntseq0 with id := record.id } aaseq ?_
      simp [process_record, hres, hloc, hpid, hstock, hext, hs, hu,
        Bind.bind, Except.bind]
  | false =>
    cases hs : args.stockholm with
    | false =>
      rw [hs] at hstock
      simp only [Bool.false_eq_true, if_false, Except.ok.injEq] at hstock
      subst hstock
      refine process_record_verdict env args record ntseq0 aaseq ?_
      simp [process_record, hres, hloc, hpid, hext, hs, hu, Bind.bind, Except.bind]
    | true =>
      have h2 := hlen hs hu
      rw [hs] at hstock
      simp only [if_true] at hstock
      rcases stockholm with - | ⟨a, - | ⟨b, t⟩⟩
      · simp at h2
      · simp at h2
      · refine process_record_verdict env args record
          { ntseq0 with
            id := ntseq0.id ++ "/" ++ toString (a * 3 - 2) ++ "-" ++ toString (b * 3) }
          aaseq ?_
        simp [process_record, hres, hloc, hpid, hstock, hext, hs, hu,
          Bind.bind, Except.bind]

/-- A CDS feature whose protein id is the input accession "P5". -/
def featP5 : Feature := { type := "CDS", qualifiers := [("protein_id", ["P5"])] }

/-- A record with the single matching CDS feature of the verification
witness. -/
def gbP5 : GbRecord := { id := "G5", features := [featP5] }

/-- An input protein record with a gap and lower-case residues. -/
def recP5 : SeqRecord := { id := "P5", description := "d", seq := "ma-" }

/-- Collaborators whose extraction translates to "MA" — matching
`recP5`. -/
def envP5 : Env :=
  { find_record_cds := fun _ => [gbP5],
    get_aa_query := fun _ => none,
    extract_feature_cds := fun _ _ _ _ => some (ntFixture, "MA") }

/-- Collaborators whose extraction translates to "XA" — a mismatch beyond
the first residue. -/
def envP5bad : Env :=
  { find_record_cds := fun _ => [gbP5],
    get_aa_query := fun _ => none,
    extract_feature_cds := fun _ _ _ _ => some (ntFixture, "XA") }

/-- Witness for C5 at concrete inputs: the matching translation "MA" is
paired with `recP5` (gaps removed, case normalized), while the mismatching
"XA" yields no pairing and no error. -/
theorem translation_verification_iff_w :
    (∃ nt, process_record envP5 argsPlain recP5 = .ok (some (recP5, nt))) ∧
    process_record envP5bad argsPlain recP5 = .ok none :=
  ⟨(translation_verification_iff envP5 argsPlain recP5 gbP5 featP5 "P5" ntFixture
      "MA" [] rfl rfl rfl rfl rfl (fun h _ => absurd h (by decide))).1.mpr
      (Or.inl (by decide)),
   (translation_verification_iff envP5bad argsPlain recP5 gbP5 featP5 "P5" ntFixture
      "XA" [] rfl rfl rfl rfl rfl (fun h _ => absurd h (by decide))).2
      ⟨by decide, by decide⟩⟩

/-- C7 as amended: with the Stockholm flag set and identifier unification
disabled, an input whose identifier carries the suffix `/start-end`
produces (on a verified match) a nucleotide record whose identifier ends
in the recomputed codon range `/(start*3-2)-(end*3)`; with unification
enabled the identifier is instead the input identifier unchanged (see the
counterexample). -/
theorem stockholm_suffix_recomputed (env : Env) (args : Args)
    (record : SeqRecord) (gb : GbRecord) (feature : Feature) (pid0 : String)
    (ntseq0 : SeqRecord) (aaseq : String) (a b : Int) (t : List Int)
    (hflag : args.stockholm = true) (huni : args.unify_seqid = false)
    (hres : env.find_record_cds record.id = [gb])
    (hloc : locate_feature (env.get_aa_query record.id) record.description
      record.id gb = .ok (some feature))
    (hpid : qualFirst feature "protein_id" = .ok pid0)
    (hparse : parse_stockholm record.id = .ok (a :: b :: t))
    (hext : env.extract_feature_cds feature gb (a :: b :: t) args =
      some (ntseq0, aaseq))
    (hver : aaseq = degap_upper record.seq) :
    process_record env args record =
      .ok (some (record, { ntseq0 with
        id := ntseq0.id ++ "/" ++ toString (a * 3 - 2) ++ "-" ++ toString (b * 3) })) := by
  have hbeq : (aaseq == degap_upper record.seq) = true := by simp [hver]
  simp only [process_record, hres, Bind.bind, Except.bind, hloc, hpid, hflag,
    huni, if_true, hparse, hext, hbeq]
  simp

/-- Witness for C7-as-amended at concrete inputs: the input "X/5-20" with
unification disabled yields an output identifier with the recomputed codon
range `/13-60`. -/
theorem stockholm_suffix_recomputed_w :
    process_record envStock argsStock recStock =
      .ok (some (recStock, { ntFixture with
        id := ntFixture.id ++ "/" ++ toString ((5 : Int) * 3 - 2) ++ "-" ++
          toString ((20 : Int) * 3) })) :=
  stockholm_suffix_recomputed envStock argsStock recStock gbP7 featP7 "X"
    ntFixture "MA" 5 20 [] rfl rfl rfl rfl rfl rfl rfl (by decide)

end Ncfp
